import Mathlib

/-!
Verification of the INNO_ABD_SIM intersection simulator against its
natural-language specification.

The definitions below are a shallow embedding of the Python sources
`src/intersection_sim/model.py` and `src/intersection_sim/agents.py`
(mesa-based agent simulation).  Conventions used throughout:

* Python integers are `Int`; Python floats that enter the control logic
  (auction bids, the adaptive green-time computation) are modelled as exact
  rationals `ℚ`.  Python `//` is `Int.fdiv` (floor division) and Python
  `int()` applied to a float is truncation toward zero (`py_int`).
* Grid coordinates are `Int × Int` so that out-of-bounds arithmetic
  (`pos + direction`) is representable exactly as in the source.
* The mesa `MultiGrid` content of a cell is recovered from three lists kept
  in the model state: the static road-cell list, the traffic-light list and
  the vehicle list (`get_cell_list_contents` = filtering those by position).
* Randomness is passed in as explicit inputs: the per-tick arrival count and
  the shuffled spawn-point order become parameters of `model_step`
  (one shuffled list per arrival).  Vehicle colours / image paths and the
  data-collector are visualization-only and are not modelled.
* Fallible Python code is `Except String _`:
  `TrafficModel.__init__` can raise `IndexError` from grid placement and
  `TrafficModel.spawn_vehicle` raises `TypeError` on the
  `VehicleAgent(...)` call because it passes a `speed=` keyword argument
  that `VehicleAgent.__init__` does not accept (agents.py line 99,
  model.py line 299).
-/

namespace IntersectionSim

/-- Light colors: the source stores the strings Red and Green in
`TrafficLightAgent.state`. -/
inductive LightColor
  | Red
  | Green
deriving DecidableEq, Repr

/-- The value of `TrafficModel.phase_transition` is either `None` or the
string `clearing`; we model it as `Option PhaseMark`. -/
inductive PhaseMark
  | clearing
deriving DecidableEq, Repr

/-- The three light-control strategies dispatched on in `TrafficModel.step`. -/
inductive Strategy
  | auction
  | fixed_cycle
  | dutch_system
deriving DecidableEq, Repr

/-- Python `range(a, b)` as a list of integers. -/
def intRange (a b : Int) : List Int :=
  (List.range (b - a).toNat).map (fun i => a + (i : Int))

/-- Python `int()` applied to a (here: rational, in the source: float)
value: truncation toward zero. -/
def py_int (q : ℚ) : Int :=
  if 0 ≤ q then ⌊q⌋ else ⌈q⌉

/-- `VehicleAgent` (agents.py lines 87-128).  The `color`, `image` and
`car_spawn_rate` attributes are visualization/bookkeeping only and never read
by the simulation logic, so they are not modelled. -/
structure Vehicle where
  unique_id : Int
  pos : Int × Int
  direction : Int × Int
  speed : Int
  sensing_range : Int
  steps_taken : Int
  is_stopped_for_queue : Bool
  is_stopped_at_light : Bool
  has_passed_light : Bool
  waiting_time : Int
deriving DecidableEq, Repr

/-- `TrafficLightAgent` (agents.py lines 19-84). -/
structure TrafficLight where
  pos : Int × Int
  state : LightColor
  is_horizontal : Bool
deriving DecidableEq, Repr

/-- The mutable and geometric state of `TrafficModel` (model.py lines 36-146).
Geometry fields are stored exactly as the constructor computes them.  The
data-collector, flow-interval bookkeeping and spawn-rate statistics are
metrics-only and not modelled; the per-tick random draws they would feed are
inputs of `model_step`. -/
structure ModelState where
  width : Int
  height : Int
  num_lanes : Int
  decision_interval : Int
  car_speed : Int
  light_strategy : Strategy
  current_cycle_time : Int
  horizontal_phase : Bool
  phase_transition : Option PhaseMark
  pending_phase : Option Bool
  min_green_time : Int
  max_green_time : Int
  clearance_time : Int
  dutch_cycle_time : Int
  sensor_range : Int
  center_start : Int
  center_end : Int
  center_range : List Int
  incoming_lanes : List Int
  outgoing_lanes : List Int
  road_cells : List (Int × Int)
  spawn_positions : List (Int × Int)
  traffic_lights : List TrafficLight
  vehicles : List Vehicle
  current_agents : Int
  total_entered : Int
  total_exited : Int
deriving DecidableEq, Repr

/-- `TrafficLightAgent._determine_orientation` (agents.py lines 34-48),
evaluated against the model geometry available at light construction time. -/
def determine_orientation (center_start center_end : Int)
    (incoming_lanes outgoing_lanes : List Int) (pos : Int × Int) : Bool :=
  if pos.1 = center_start - 1 && incoming_lanes.contains pos.2 then true
  else if pos.1 = center_end && outgoing_lanes.contains pos.2 then true
  else false

/-- `create_road_segment` (model.py lines 306-315): the list of cells of one
road rectangle, in placement order. -/
def create_road_segment (x_range y_range : List Int) : List (Int × Int) :=
  x_range.flatMap (fun x => y_range.map (fun y => (x, y)))

/-- Valid Python list index for a list of length `len.toNat` (negative
indices wrap, out-of-range indices raise `IndexError`).  Mesa performs no
bounds check of its own: `MultiGrid.place_agent` indexes `grid[x][y]`
directly. -/
def pyIndexOk (len i : Int) : Bool :=
  (-(max len 0) ≤ i) && (i < max len 0)

/-- Construction parameters of `TrafficModel.__init__` (model.py line 36).
The `traffic_condition` string only selects spawn-rate statistics, which are
inputs of `model_step` here, so it is not carried. -/
structure Config where
  width : Int
  height : Int
  decision_interval : Int
  num_lanes : Int
  car_speed : Int
  light_strategy : Strategy
deriving DecidableEq, Repr

/-- `TrafficModel.__init__` (model.py lines 36-146 together with
`_initialize_traffic_lights`).  The only failure the constructor can hit for
the inputs the claims quantify over is an `IndexError` from
`MultiGrid`-cell indexing during `place_agent`; placements are recorded at
their literal coordinates (no claim exercises a silently wrapping negative
index).  No validation of `width`, `height` or `num_lanes` exists in the
source. -/
def build_model (c : Config) : Except String ModelState :=
  let intersection_size := 2 * c.num_lanes
  let center_start := Int.fdiv (c.width - intersection_size) 2
  let center_end := center_start + intersection_size
  let center_range := intRange center_start center_end
  let incoming_lanes := intRange center_start (center_start + c.num_lanes)
  let outgoing_lanes := intRange (center_end - c.num_lanes) center_end
  let road_lanes := incoming_lanes ++ outgoing_lanes
  let road_cells :=
    create_road_segment road_lanes (intRange 0 center_start) ++
    create_road_segment road_lanes (intRange center_end c.height) ++
    create_road_segment (intRange 0 center_start) road_lanes ++
    create_road_segment (intRange center_end c.width) road_lanes ++
    create_road_segment center_range center_range
  let spawn_positions :=
    incoming_lanes.map (fun y => ((0 : Int), y)) ++
    outgoing_lanes.map (fun y => (c.width - 1, y)) ++
    outgoing_lanes.map (fun x => (x, (0 : Int))) ++
    incoming_lanes.map (fun x => (x, c.height - 1))
  let light_positions :=
    incoming_lanes.map (fun x => (x + c.num_lanes, center_start - 1)) ++
    outgoing_lanes.map (fun x => (x - c.num_lanes, center_end)) ++
    incoming_lanes.map (fun y => (center_start - 1, y)) ++
    outgoing_lanes.map (fun y => (center_end, y))
  if (road_cells ++ light_positions).all
      (fun p => pyIndexOk c.width p.1 && pyIndexOk c.height p.2) then
    .ok
      { width := c.width
        height := c.height
        num_lanes := c.num_lanes
        decision_interval := c.decision_interval
        car_speed := c.car_speed
        light_strategy := c.light_strategy
        current_cycle_time := 0
        horizontal_phase := true
        phase_transition := none
        pending_phase := none
        min_green_time := 7
        max_green_time := 60
        clearance_time := 3
        dutch_cycle_time := 0
        sensor_range := 10
        center_start := center_start
        center_end := center_end
        center_range := center_range
        incoming_lanes := incoming_lanes
        outgoing_lanes := outgoing_lanes
        road_cells := road_cells
        spawn_positions := spawn_positions
        traffic_lights := light_positions.map (fun p =>
          { pos := p
            state := .Red
            is_horizontal :=
              determine_orientation center_start center_end
                incoming_lanes outgoing_lanes p })
        vehicles := []
        current_agents := 0
        total_entered := 0
        total_exited := 0 }
  else
    .error "IndexError: grid cell index out of range"

/-- Vehicles occupying a given cell: the `VehicleAgent` entries of
`grid.get_cell_list_contents(pos)`. -/
def vehicles_at (st : ModelState) (p : Int × Int) : List Vehicle :=
  st.vehicles.filter (fun v => v.pos = p)

/-- Whether any vehicle occupies the cell. -/
def vehicle_present (st : ModelState) (p : Int × Int) : Bool :=
  st.vehicles.any (fun v => v.pos = p)

/-- The first `TrafficLightAgent` in the contents of a cell, if any
(in the source at most one light is ever placed per cell). -/
def light_at (st : ModelState) (p : Int × Int) : Option TrafficLight :=
  st.traffic_lights.find? (fun l => l.pos = p)

/-- `VehicleAgent._determine_direction` (agents.py lines 139-162). -/
def determine_direction (st : ModelState) (start_pos : Int × Int) : Int × Int :=
  if start_pos.1 = 0 && st.incoming_lanes.contains start_pos.2 then (1, 0)
  else if start_pos.1 = st.width - 1 && st.outgoing_lanes.contains start_pos.2 then (-1, 0)
  else if start_pos.2 = 0 && st.outgoing_lanes.contains start_pos.1 then (0, 1)
  else if start_pos.2 = st.height - 1 && st.incoming_lanes.contains start_pos.1 then (0, -1)
  else (0, 0)

/-- `VehicleAgent.detect_queue` (agents.py lines 164-183): scan up to
`sensing_range` cells ahead for a vehicle strictly slower than `self`. -/
def detect_queue (st : ModelState) (v : Vehicle) : Bool :=
  if v.speed = 0 then false
  else (List.range v.sensing_range.toNat).any (fun i =>
    let k : Int := (i : Int) + 1
    let cx := v.pos.1 + v.direction.1 * k
    let cy := v.pos.2 + v.direction.2 * k
    if 0 ≤ cx && cx < st.width && 0 ≤ cy && cy < st.height then
      st.vehicles.any (fun w => w.pos = (cx, cy) && w.speed < v.speed)
    else false)

/-- `VehicleAgent.is_approaching_intersection` (agents.py lines 185-194). -/
def is_approaching_intersection (st : ModelState) (v : Vehicle) : Bool :=
  let next_x := v.pos.1 + v.direction.1
  let next_y := v.pos.2 + v.direction.2
  (st.center_range.contains next_x && st.center_range.contains v.pos.2) ||
  (st.center_range.contains v.pos.1 && st.center_range.contains next_y)

/-- The controlling-light position computed (identically) in
`VehicleAgent.is_at_traffic_light` (agents.py lines 196-224) and
`VehicleAgent._handle_intersection_approach` (agents.py lines 296-315).
The `lanes.index(...) if ... else 0` fallback makes the looked-up lane equal
to the vehicle's own coordinate when it lies in the lane list and to the
first lane otherwise; the source would raise `IndexError` on an empty lane
list, which no claim exercises (`headD 0` stands in for that unreachable
read). -/
def compute_light_pos (st : ModelState) (v : Vehicle) : Option (Int × Int) :=
  if v.direction = (1, 0) then
    let lane := if st.incoming_lanes.contains v.pos.2 then v.pos.2
      else st.incoming_lanes.headD 0
    some (st.center_start - 1, lane)
  else if v.direction = (-1, 0) then
    let lane := if st.outgoing_lanes.contains v.pos.2 then v.pos.2
      else st.outgoing_lanes.headD 0
    some (st.center_end, lane)
  else if v.direction = (0, 1) then
    let lane := if st.outgoing_lanes.contains v.pos.1 then v.pos.1
      else st.outgoing_lanes.headD 0
    some (lane, st.center_start - 1)
  else if v.direction = (0, -1) then
    let lane := if st.incoming_lanes.contains v.pos.1 then v.pos.1
      else st.incoming_lanes.headD 0
    some (lane, st.center_end)
  else none

/-- `VehicleAgent.is_at_traffic_light` (agents.py lines 196-224):
`self.pos == light_pos`, false when no light position was determined. -/
def is_at_traffic_light (st : ModelState) (v : Vehicle) : Bool :=
  match compute_light_pos st v with
  | some lp => v.pos = lp
  | none => false

/-- `VehicleAgent.check_traffic_light_state` (agents.py lines 226-239). -/
def check_traffic_light_state (st : ModelState) (v : Vehicle) : Option LightColor :=
  if is_at_traffic_light st v then (light_at st v.pos).map (fun l => l.state)
  else none

/-- `VehicleAgent.is_in_intersection` (agents.py lines 241-248). -/
def is_in_intersection (st : ModelState) (p : Int × Int) : Bool :=
  st.center_range.contains p.1 && st.center_range.contains p.2

/-- `VehicleAgent._handle_intersection_approach` (agents.py lines 296-324):
if the gating light exists and shows Red, stop (clearing the queue flag). -/
def handle_intersection_approach (st : ModelState) (v : Vehicle) : Vehicle :=
  match compute_light_pos st v with
  | none => v
  | some lp =>
    if st.traffic_lights.any (fun l => l.pos = lp && l.state = .Red) then
      { v with speed := 0, is_stopped_for_queue := false }
    else v

/-- Stage 1 of `VehicleAgent.step` (agents.py lines 252-254): reset the
passed-light flag when outside the intersection. -/
def vehicle_stage1 (st : ModelState) (v : Vehicle) : Vehicle :=
  if ¬ is_in_intersection st v.pos then { v with has_passed_light := false }
  else v

/-- The waiting-time statistics update of `VehicleAgent.step`
(agents.py lines 270-274). -/
def waiting_update (v : Vehicle) : Vehicle :=
  if v.speed = 0 then { v with waiting_time := v.waiting_time + 1 }
  else { v with waiting_time := 0 }

/-- The intersection-approach handling of `VehicleAgent.step`
(agents.py lines 276-278). -/
def approach_update (st : ModelState) (v : Vehicle) : Vehicle :=
  if is_approaching_intersection st v && ¬ is_at_traffic_light st v then
    handle_intersection_approach st v
  else v

/-- The queue-detection block of `VehicleAgent.step`
(agents.py lines 280-290). -/
def queue_update (st : ModelState) (v : Vehicle) : Vehicle :=
  if ¬ v.is_stopped_at_light then
    if detect_queue st v then
      { v with speed := 0, is_stopped_for_queue := true }
    else if v.is_stopped_for_queue && ¬ detect_queue st v then
      { v with speed := 1, is_stopped_for_queue := false }
    else
      { v with speed := 1 }
  else v

/-- The tail of `VehicleAgent.step` after the traffic-light block
(agents.py lines 270-294): waiting-time update, intersection-approach
handling, queue detection, and the decision whether to move.  The returned
flag is the `self.speed > 0` movement condition of line 293. -/
def vehicle_continue (st : ModelState) (v : Vehicle) : Vehicle × Bool :=
  let v := waiting_update v
  let v := approach_update st v
  let v := queue_update st v
  (v, v.speed > 0)

/-- The attribute writes of the Red branch of the traffic-light block
(agents.py lines 259-264). -/
def red_stop_update (v1 : Vehicle) : Vehicle :=
  { v1 with speed := 0, is_stopped_at_light := true,
            is_stopped_for_queue := false,
            waiting_time := v1.waiting_time + 1 }

/-- The attribute writes of the Green branch of the traffic-light block
(agents.py lines 265-268). -/
def green_go_update (v1 : Vehicle) : Vehicle :=
  { v1 with speed := 1, is_stopped_at_light := false,
            has_passed_light := true }

/-- The per-vehicle field updates of `VehicleAgent.step` (agents.py lines
250-294): the returned vehicle carries all attribute writes of the step and
the flag says whether `_move_forward` is reached.  The Red branch returns
immediately (no waiting-time update, no queue scan, no movement). -/
def vehicle_step_core (st : ModelState) (v : Vehicle) : Vehicle × Bool :=
  let v1 := vehicle_stage1 st v
  if ¬ v1.has_passed_light && is_at_traffic_light st v1 then
    match check_traffic_light_state st v1 with
    | some .Red => (red_stop_update v1, false)
    | some .Green =>
      if v1.is_stopped_at_light then vehicle_continue st (green_go_update v1)
      else vehicle_continue st v1
    | none => vehicle_continue st v1
  else vehicle_continue st v1

/-- Replace every vehicle carrying the given id (in the source: the single
scheduled agent object) by the updated vehicle value. -/
def replace_vehicle (l : List Vehicle) (id : Int) (v : Vehicle) : List Vehicle :=
  l.map (fun w => if w.unique_id = id then v else w)

/-- The `(new_x, new_y)` cell computed at the top of
`VehicleAgent._move_forward` (agents.py lines 328-329). -/
def next_cell (v : Vehicle) : Int × Int :=
  (v.pos.1 + v.direction.1, v.pos.2 + v.direction.2)

/-- The bounds check `0 <= x < width and 0 <= y < height` of
`VehicleAgent._move_forward` (agents.py line 332). -/
def in_grid (st : ModelState) (p : Int × Int) : Bool :=
  decide (0 ≤ p.1) && decide (p.1 < st.width) &&
  decide (0 ≤ p.2) && decide (p.2 < st.height)

/-- `VehicleAgent._move_forward` (agents.py lines 326-346): one attempted
one-cell advance; out of bounds removes the vehicle and counts an exit, and
the move commits only into a road cell holding no vehicle. -/
def move_forward (st : ModelState) (v : Vehicle) : ModelState :=
  let nxt := next_cell v
  if ¬ in_grid st nxt then
    { st with vehicles := st.vehicles.filter (fun w => w.unique_id ≠ v.unique_id)
              current_agents := st.current_agents - 1
              total_exited := st.total_exited + 1 }
  else
    let road_present := st.road_cells.contains nxt
    let veh_present := vehicle_present st nxt
    if road_present && !veh_present then
      let moved := { v with pos := nxt, steps_taken := v.steps_taken + 1 }
      { st with vehicles := replace_vehicle st.vehicles v.unique_id moved }
    else st

/-- One full `VehicleAgent.step` acting on the model state: commit the field
updates, then run `_move_forward` when the movement condition holds. -/
def vehicle_step_on (st : ModelState) (v : Vehicle) : ModelState :=
  let r := vehicle_step_core st v
  let st1 := { st with vehicles := replace_vehicle st.vehicles v.unique_id r.1 }
  if r.2 then move_forward st1 r.1 else st1

/-- `TrafficLightAgent.step` (agents.py lines 79-84). -/
def light_step (st : ModelState) (l : TrafficLight) : TrafficLight :=
  if st.phase_transition.isSome then { l with state := .Red }
  else if l.is_horizontal = st.horizontal_phase then { l with state := .Green }
  else { l with state := .Red }

/-- The light half of `schedule.step()`: all lights were added to the
schedule before any vehicle, and each reads only controller fields no light
writes, so the sequential mesa loop equals a map. -/
def lights_phase (st : ModelState) : ModelState :=
  { st with traffic_lights := st.traffic_lights.map (light_step st) }

/-- The vehicle half of `schedule.step()`: mesa iterates over a buffer of the
agents present at the start of the loop, skipping any that removed
themselves, and each step mutates the live grid immediately. -/
def vehicles_phase (st : ModelState) : ModelState :=
  (st.vehicles.map (fun v => v.unique_id)).foldl (fun s id =>
    match s.vehicles.find? (fun w => w.unique_id = id) with
    | none => s
    | some v => vehicle_step_on s v) st

/-- `self.schedule.step()` of `TrafficModel.step` (model.py line 180):
lights first (insertion order), then vehicles. -/
def schedule_step (st : ModelState) : ModelState :=
  vehicles_phase (lights_phase st)

/-- `TrafficLightAgent.get_lane_cells` (agents.py lines 50-77). -/
def get_lane_cells (st : ModelState) (l : TrafficLight) : List (Int × Int) :=
  if l.is_horizontal then
    if l.pos.1 = st.center_start - 1 then
      (intRange 0 st.center_start).map (fun x => (x, l.pos.2))
    else
      (intRange st.center_end st.width).map (fun x => (x, l.pos.2))
  else
    if l.pos.2 = st.center_start - 1 then
      (intRange 0 st.center_start).map (fun y => (l.pos.1, y))
    else
      (intRange st.center_end st.height).map (fun y => (l.pos.1, y))

/-- Queue length and summed waiting time over one lane
(model.py lines 199-207): every vehicle standing on a lane cell counts. -/
def light_queue_stats (st : ModelState) (l : TrafficLight) : Int × Int :=
  (get_lane_cells st l).foldl (fun acc cell =>
    (vehicles_at st cell).foldl
      (fun acc2 v => (acc2.1 + 1, acc2.2 + v.waiting_time)) acc) (0, 0)

/-- The bid of one light (model.py lines 209-210): `queue_length * avg_wait`
with `avg_wait = total_wait / queue_length` when the queue is non-empty and
`0` otherwise; the float arithmetic of the source is modelled exactly in ℚ. -/
def light_bid (st : ModelState) (l : TrafficLight) : ℚ :=
  let s := light_queue_stats st l
  let avg_wait : ℚ := if s.1 > 0 then (s.2 : ℚ) / (s.1 : ℚ) else 0
  (s.1 : ℚ) * avg_wait

/-- The per-direction bid totals of `conduct_auction` (model.py lines
195-216), accumulated over the lights in schedule order. -/
def auction_totals (st : ModelState) : ℚ × ℚ :=
  st.traffic_lights.foldl (fun acc l =>
    if l.is_horizontal then (acc.1 + light_bid st l, acc.2)
    else (acc.1, acc.2 + light_bid st l)) (0, 0)

/-- `TrafficModel.conduct_auction` (model.py lines 189-229). -/
def conduct_auction (st : ModelState) : ModelState :=
  let t := auction_totals st
  let new_phase : Bool := t.1 ≥ t.2
  if new_phase ≠ st.horizontal_phase then
    { st with phase_transition := some .clearing, pending_phase := some new_phase }
  else st

/-- The in-sensor-range queue length of one light used by the Dutch system
(model.py lines 240-258): vehicles on lane cells whose distance from the
light along the lane axis is at most `sensor_range`. -/
def light_queue_in_range (st : ModelState) (l : TrafficLight) : Int :=
  (get_lane_cells st l).foldl (fun acc cell =>
    let distance := if l.is_horizontal then (cell.1 - l.pos.1).natAbs
      else (cell.2 - l.pos.2).natAbs
    if (distance : Int) ≤ st.sensor_range then
      acc + ((vehicles_at st cell).length : Int)
    else acc) 0

/-- The horizontal/vertical queue totals of `conduct_dutch_system`
(model.py lines 238-258). -/
def dutch_queues (st : ModelState) : Int × Int :=
  st.traffic_lights.foldl (fun acc l =>
    let q := light_queue_in_range st l
    if l.is_horizontal then (acc.1 + q, acc.2) else (acc.1, acc.2 + q)) (0, 0)

/-- The `green_time` local variable of `conduct_dutch_system`
(model.py lines 260-267): `min_green + (max_green - min_green) * ratio`
truncated by Python `int()` and clamped into `[min_green, max_green]`, or
`min_green` when no vehicle is queued.  The float arithmetic of the source
is modelled exactly in ℚ. -/
def dutch_green_time_src (st : ModelState) : Int :=
  let q := dutch_queues st
  let total_queue := q.1 + q.2
  if total_queue > 0 then
    let hshare : ℚ := (q.1 : ℚ) / (total_queue : ℚ)
    let gt : ℚ := (st.min_green_time : ℚ) +
      ((st.max_green_time : ℚ) - (st.min_green_time : ℚ)) * hshare
    max st.min_green_time (min st.max_green_time (py_int gt))
  else st.min_green_time

/-- `TrafficModel.conduct_dutch_system` (model.py lines 231-275): return
immediately while clearing, otherwise measure the queues, derive the green
time and request the opposite phase once the cycle timer has reached
green time plus clearance time. -/
def conduct_dutch_system (st : ModelState) : ModelState :=
  if st.phase_transition = some .clearing then st
  else if st.dutch_cycle_time ≥ dutch_green_time_src st + st.clearance_time then
    { st with phase_transition := some .clearing,
              pending_phase := some (!st.horizontal_phase),
              dutch_cycle_time := 0 }
  else st

/-- The timer increments of `TrafficModel.step` (model.py lines 162-163). -/
def tick_timers (st : ModelState) : ModelState :=
  { st with current_cycle_time := st.current_cycle_time + 1,
            dutch_cycle_time := st.dutch_cycle_time + 1 }

/-- The strategy dispatch of `TrafficModel.step` (model.py lines 165-177).
Note that `fixed_cycle` flips `horizontal_phase` directly, without entering
the clearing transition. -/
def strategy_phase (st : ModelState) : ModelState :=
  match st.light_strategy with
  | .auction =>
    if st.current_cycle_time ≥ st.decision_interval then
      { conduct_auction st with current_cycle_time := 0 }
    else st
  | .fixed_cycle =>
    if st.current_cycle_time ≥ st.decision_interval then
      { st with horizontal_phase := !st.horizontal_phase, current_cycle_time := 0 }
    else st
  | .dutch_system => conduct_dutch_system st

/-- `TrafficModel.is_intersection_clear` (model.py lines 277-288). -/
def is_intersection_clear (st : ModelState) : Bool :=
  st.center_range.all (fun x => st.center_range.all (fun y =>
    !(vehicle_present st (x, y))))

/-- The clearance-commit block at the end of `TrafficModel.step`
(model.py lines 183-187).  In the source `pending_phase` is always a concrete
bool whenever `phase_transition` is `clearing` (they are only ever assigned
together), so the `none` fallback below is unreachable there. -/
def commit_phase (st : ModelState) : ModelState :=
  if st.phase_transition = some .clearing && is_intersection_clear st then
    { st with horizontal_phase := (st.pending_phase.getD st.horizontal_phase),
              phase_transition := none,
              pending_phase := none }
  else st

/-- The TypeError raised by `TrafficModel.spawn_vehicle` when it reaches the
`VehicleAgent(...)` call (model.py line 299): the call passes a `speed=`
keyword argument that `VehicleAgent.__init__` (agents.py line 99) does not
accept. -/
def spawn_type_error : String :=
  "TypeError: VehicleAgent.__init__ got an unexpected keyword argument speed"

/-- `TrafficModel.spawn_vehicle` (model.py lines 290-304), with the shuffled
copy of `VehicleAgent.spawn_positions` supplied as an input.  The loop stops
at the first spawn point holding no vehicle; there the source constructs the
vehicle with `VehicleAgent(vehicle_id, self, start_pos,
car_spawn_rate=self.car_spawn_rate, speed=self.car_speed)`, which raises
`TypeError` (no `speed` parameter exists), so the placement code on lines
300-304 is unreachable.  When every listed point is occupied the loop ends
and the state is returned unchanged. -/
def spawn_vehicle (st : ModelState) (shuffled : List (Int × Int)) :
    Except String ModelState :=
  match shuffled.find? (fun p => !(vehicle_present st p)) with
  | some _ => .error spawn_type_error
  | none => .ok st

/-- The spawn loop of `TrafficModel.step` (model.py lines 157-159): one
`spawn_vehicle` call per sampled arrival; the sampled count and each call's
shuffled spawn-point order are supplied as the list of shuffles. -/
def spawn_phase (st : ModelState) :
    List (List (Int × Int)) → Except String ModelState
  | [] => .ok st
  | sh :: rest =>
    match spawn_vehicle st sh with
    | .error e => .error e
    | .ok st1 => spawn_phase st1 rest

/-- Everything `TrafficModel.step` does after the spawn loop
(model.py lines 161-187): timers, strategy dispatch, the agent steps and the
clearance commit. -/
def post_spawn_step (st : ModelState) : ModelState :=
  commit_phase (schedule_step (strategy_phase (tick_timers st)))

/-- `TrafficModel.step` (model.py lines 148-187), minus the data-collector
call, with the random draws of the tick passed in as `shuffles`. -/
def model_step (st : ModelState) (shuffles : List (List (Int × Int))) :
    Except String ModelState :=
  match spawn_phase st shuffles with
  | .error e => .error e
  | .ok st1 => .ok (post_spawn_step st1)

/-! Concrete instances used by the theorems below: a 20 by 20 grid with one
lane per direction, the configuration exercised by the scenario-style
claims. -/

/-- Placeholder state used only to destructure `Except` results of
`build_model` at concrete configurations (never reached there). -/
def empty_model : ModelState where
  width := 0
  height := 0
  num_lanes := 0
  decision_interval := 0
  car_speed := 0
  light_strategy := .auction
  current_cycle_time := 0
  horizontal_phase := true
  phase_transition := none
  pending_phase := none
  min_green_time := 0
  max_green_time := 0
  clearance_time := 0
  dutch_cycle_time := 0
  sensor_range := 0
  center_start := 0
  center_end := 0
  center_range := []
  incoming_lanes := []
  outgoing_lanes := []
  road_cells := []
  spawn_positions := []
  traffic_lights := []
  vehicles := []
  current_agents := 0
  total_entered := 0
  total_exited := 0

/-- A 20 by 20, one-lane, auction-strategy configuration. -/
def cfg20 : Config where
  width := 20
  height := 20
  decision_interval := 30
  num_lanes := 1
  car_speed := 1
  light_strategy := .auction

/-- The freshly constructed model for `cfg20`. -/
def base20 : ModelState := (build_model cfg20).toOption.getD empty_model

/-- A vehicle literal with the construction-time defaults of
`VehicleAgent.__init__` for the flags and counters. -/
def mkVehicle (id : Int) (pos dir : Int × Int) (speed waiting : Int) : Vehicle where
  unique_id := id
  pos := pos
  direction := dir
  speed := speed
  sensing_range := 5
  steps_taken := 0
  is_stopped_for_queue := false
  is_stopped_at_light := false
  has_passed_light := false
  waiting_time := waiting

/-! Definitions following the wording of the specification, used to compare
the source computations against the spec (refinement-style claims). -/

/-- The spec wording of the auction's horizontal total: the sum of the
per-light bids over the lights of the horizontal direction group. -/
def claimed_horizontal_total (st : ModelState) : ℚ :=
  ((st.traffic_lights.filter (fun l => l.is_horizontal)).map (light_bid st)).sum

/-- The spec wording of the auction's vertical total. -/
def claimed_vertical_total (st : ModelState) : ℚ :=
  ((st.traffic_lights.filter (fun l => !l.is_horizontal)).map (light_bid st)).sum

/-- The spec wording of the adaptive strategy's horizontal queue: summed
in-sensor-range queue lengths over the horizontal lights. -/
def claimed_horizontal_queue (st : ModelState) : Int :=
  ((st.traffic_lights.filter (fun l => l.is_horizontal)).map
    (light_queue_in_range st)).sum

/-- The spec wording of the adaptive strategy's vertical queue. -/
def claimed_vertical_queue (st : ModelState) : Int :=
  ((st.traffic_lights.filter (fun l => !l.is_horizontal)).map
    (light_queue_in_range st)).sum

/-- The adaptive target green time as the source computes it (with the
`int()` truncation), written over the per-direction queue sums. -/
def dutch_green_time (st : ModelState) : Int :=
  let hq := claimed_horizontal_queue st
  let vq := claimed_vertical_queue st
  let total := hq + vq
  if total > 0 then
    max st.min_green_time (min st.max_green_time
      (py_int ((st.min_green_time : ℚ) +
        ((st.max_green_time : ℚ) - (st.min_green_time : ℚ)) * ((hq : ℚ) / (total : ℚ)))))
  else st.min_green_time

/-! Concrete states exercised by the per-claim witnesses and
counterexamples. -/

/-- A state already in the clearing transition with a pending horizontal
phase and an empty intersection. -/
def clearing_state : ModelState :=
  { base20 with horizontal_phase := false,
                phase_transition := some .clearing,
                pending_phase := some true }

/-- A fixed-cycle state one tick before the decision interval elapses. -/
def fixed_cycle_state : ModelState :=
  { base20 with light_strategy := .fixed_cycle, current_cycle_time := 29 }

/-- Two vehicles driving east on the west approach. -/
def two_vehicle_state : ModelState :=
  { base20 with vehicles := [mkVehicle 1 (2, 9) (1, 0) 1 0,
                             mkVehicle 2 (3, 9) (1, 0) 1 0] }

/-- A vehicle given speed 3 with three clear road cells ahead of it
(scenario 4 of the spec). -/
def speed3_vehicle : Vehicle := mkVehicle 1 (2, 9) (1, 0) 3 0

/-- The state holding only `speed3_vehicle`. -/
def speed3_state : ModelState := { base20 with vehicles := [speed3_vehicle] }

/-- Scenario 3 of the spec: the vertical phase is green, one vehicle with
waiting time 10 stands on the west (horizontal) approach lane, the vertical
lanes are empty, and the decision interval has elapsed. -/
def auction_scenario : ModelState :=
  { base20 with horizontal_phase := false,
                current_cycle_time := 30,
                vehicles := [mkVehicle 1 (5, 9) (1, 0) 0 10] }

/-- An adaptive-strategy state with one horizontal and one vertical queued
vehicle (both within sensor range) and an adaptive cycle timer of 36. -/
def dutch_state : ModelState :=
  { base20 with light_strategy := .dutch_system,
                dutch_cycle_time := 36,
                vehicles := [mkVehicle 1 (5, 9) (1, 0) 1 0,
                             mkVehicle 2 (10, 5) (0, 1) 1 0] }

/-- A vehicle standing at the west light cell. -/
def at_light_vehicle : Vehicle := mkVehicle 1 (8, 9) (1, 0) 1 0

/-- The state holding only `at_light_vehicle`; the freshly built lights all
still show Red. -/
def at_light_state : ModelState := { base20 with vehicles := [at_light_vehicle] }

/-- `base20` with every spawn point occupied by a vehicle. -/
def occupied_spawn_state : ModelState :=
  { base20 with vehicles := [mkVehicle 1 (0, 9) (1, 0) 1 0,
                             mkVehicle 2 (19, 10) (-1, 0) 1 0,
                             mkVehicle 3 (10, 0) (0, 1) 1 0,
                             mkVehicle 4 (9, 19) (0, -1) 1 0] }

/-- The 20 by 20 configuration with a zero lane count. -/
def zero_lane_cfg : Config := { cfg20 with num_lanes := 0 }

/-- The three controller fields vehicles and lights never write. -/
def same_ctrl (s t : ModelState) : Prop :=
  s.horizontal_phase = t.horizontal_phase
  ∧ s.phase_transition = t.phase_transition
  ∧ s.pending_phase = t.pending_phase

/-- Committed-state well-formedness: the scheduled vehicles carry pairwise
distinct ids (mesa's `next_id` hands them out) and pairwise distinct
positions. -/
def vehicles_ok (l : List Vehicle) : Prop :=
  l.Pairwise (fun a b => a.unique_id ≠ b.unique_id ∧ a.pos ≠ b.pos)

/-- The no-overlap property of the spec: no two vehicles on one cell. -/
def no_overlap (l : List Vehicle) : Prop :=
  l.Pairwise (fun a b => a.pos ≠ b.pos)

/-! General helper lemmas. -/

theorem foldl_preserve {α β : Type _} (f : β → α → β) (P : β → Prop)
    (hstep : ∀ s a, P s → P (f s a)) :
    ∀ (l : List α) (init : β), P init → P (l.foldl f init)
  | [], _, h0 => h0
  | a :: t, init, h0 => foldl_preserve f P hstep t (f init a) (hstep init a h0)

theorem intRange_eq_nil {a b : Int} (h : b ≤ a) : intRange a b = [] := by
  unfold intRange
  have : (b - a).toNat = 0 := Int.toNat_of_nonpos (by omega)
  simp [this]

theorem create_road_segment_nil_left (ys : List Int) :
    create_road_segment [] ys = [] := rfl

theorem create_road_segment_nil_right (xs : List Int) :
    create_road_segment xs [] = [] := by
  simp [create_road_segment]

theorem flatMap_nil_fun {α β : Type _} (l : List α) :
    (l.flatMap fun _ => ([] : List β)) = [] := by
  induction l with
  | nil => rfl
  | cons a t ih => simp [ih]

/-! ### C10: lights are constructed Red, before any step -/

/-- C10: a `TrafficLightAgent` is constructed with state Red while the
controller is constructed with `horizontal_phase = true`, so before the
first `step()` every light reports Red even when its direction group holds
the green phase; the first `step()` recomputes the color from the phase. -/
theorem lights_start_red (c : Config) (m : ModelState)
    (h : build_model c = .ok m) :
    m.horizontal_phase = true
    ∧ m.phase_transition = none
    ∧ (∀ l ∈ m.traffic_lights, l.state = .Red)
    ∧ (∀ l ∈ m.traffic_lights,
        (light_step m l).state =
          (if l.is_horizontal = m.horizontal_phase then LightColor.Green
           else LightColor.Red)) := by
  unfold build_model at h
  dsimp only at h
  split at h
  case isFalse => cases h
  case isTrue =>
    cases h
    refine ⟨rfl, rfl, ?_, ?_⟩
    · intro l hl
      simp only [List.mem_map] at hl
      obtain ⟨p, _, rfl⟩ := hl
      rfl
    · intro l _
      simp only [light_step]
      split
      case isTrue h2 => simp at h2
      case isFalse =>
        split
        case isTrue h3 => simp [h3]
        case isFalse h3 => simp [h3]

/-- Witness for C10 at the concrete 20 by 20 model: construction yields a
green horizontal phase while the west light starts Red, and its first step
turns it Green. -/
theorem lights_start_red_witness :
    base20.horizontal_phase = true
    ∧ (light_step base20 ⟨(8, 9), LightColor.Red, true⟩).state =
        (if true = base20.horizontal_phase then LightColor.Green
         else LightColor.Red) :=
  ⟨(lights_start_red cfg20 base20 rfl).1,
   (lights_start_red cfg20 base20 rfl).2.2.2 ⟨(8, 9), .Red, true⟩ (by decide)⟩

/-! ### C9: degenerate configurations at construction -/

/-- C9 counterexample: constructing the model with a zero lane count does
not fail fast; it silently returns a model whose road network is empty
(no road cells, no spawn points, no traffic lights). -/
theorem degenerate_config_counterexample :
    (build_model zero_lane_cfg).isOk = true
    ∧ (build_model zero_lane_cfg).toOption.map
        (fun m => (m.road_cells, m.spawn_positions, m.traffic_lights)) =
        some ([], [], []) := by
  constructor
  · rfl
  · rfl

/-- C9 amended: for every configuration with a non-positive lane count the
constructor succeeds (raising nothing) and the resulting model has an empty
road network: no road cells, no spawn positions and no traffic lights. -/
theorem degenerate_lanes_build_ok (c : Config) (h : c.num_lanes ≤ 0) :
    (build_model c).isOk = true
    ∧ (build_model c).toOption.map
        (fun m => (m.road_cells, m.spawn_positions, m.traffic_lights)) =
        some ([], [], []) := by
  have hin : intRange (Int.fdiv (c.width - 2 * c.num_lanes) 2)
      (Int.fdiv (c.width - 2 * c.num_lanes) 2 + c.num_lanes) = [] :=
    intRange_eq_nil (by omega)
  have hout : intRange (Int.fdiv (c.width - 2 * c.num_lanes) 2 + 2 * c.num_lanes
        - c.num_lanes)
      (Int.fdiv (c.width - 2 * c.num_lanes) 2 + 2 * c.num_lanes) = [] :=
    intRange_eq_nil (by omega)
  have hcr : intRange (Int.fdiv (c.width - 2 * c.num_lanes) 2)
      (Int.fdiv (c.width - 2 * c.num_lanes) 2 + 2 * c.num_lanes) = [] :=
    intRange_eq_nil (by omega)
  unfold build_model
  dsimp only
  rw [hin, hout, hcr]
  simp only [create_road_segment, flatMap_nil_fun, List.map_nil, List.append_nil,
    List.nil_append, List.all_nil]
  exact ⟨rfl, rfl⟩

/-- Witness for the amended C9 statement at the concrete zero-lane
configuration. -/
theorem degenerate_lanes_build_ok_witness :
    (build_model zero_lane_cfg).isOk = true
    ∧ (build_model zero_lane_cfg).toOption.map
        (fun m => (m.road_cells, m.spawn_positions, m.traffic_lights)) =
        some ([], [], []) :=
  degenerate_lanes_build_ok zero_lane_cfg (by decide)

/-! ### C8: spawning behaviour -/

/-- C8: the spawn loop of `spawn_vehicle`.  On the freshly built model every
spawn point is vehicle-free, and the attempt raises a `TypeError` (the
`VehicleAgent` constructor call passes an unsupported `speed=` keyword
argument) instead of placing a vehicle; with every spawn point occupied the
attempt returns with the state unchanged and no error. -/
theorem spawn_vehicle_typeerror :
    vehicle_present base20 (0, 9) = false
    ∧ spawn_vehicle base20 base20.spawn_positions = .error spawn_type_error
    ∧ spawn_vehicle occupied_spawn_state occupied_spawn_state.spawn_positions =
        .ok occupied_spawn_state := by
  refine ⟨by decide, by rfl, by rfl⟩

/-! ### C4: vehicle movement distance -/

/-- C4 counterexample: `speed3_vehicle` has speed 3 and the three cells
ahead of it are clear road cells, yet `_move_forward` advances it exactly
one cell (to (3,9), not (5,9)). -/
theorem gap_filling_counterexample :
    speed3_vehicle.speed = 3
    ∧ base20.road_cells.contains (3, 9) = true
    ∧ base20.road_cells.contains (4, 9) = true
    ∧ base20.road_cells.contains (5, 9) = true
    ∧ vehicle_present speed3_state (3, 9) = false
    ∧ vehicle_present speed3_state (4, 9) = false
    ∧ vehicle_present speed3_state (5, 9) = false
    ∧ (move_forward speed3_state speed3_vehicle).vehicles.map (fun w => w.pos) =
        [(3, 9)] := by
  refine ⟨by decide, by decide, by decide, by decide, by decide, by decide,
    by decide, by decide⟩

/-- C4 amended: the movement phase advances a vehicle at most one cell,
regardless of its speed.  An out-of-bounds next cell removes the vehicle and
counts an exit; a clear road next cell receives the vehicle; any other next
cell leaves the state unchanged.  Every vehicle present afterwards is either
untouched or is the stepped vehicle moved exactly one cell. -/
theorem move_forward_one_cell (st : ModelState) (v : Vehicle) :
    (∀ w ∈ (move_forward st v).vehicles, w ∈ st.vehicles ∨
       (w.unique_id = v.unique_id ∧ w.pos = next_cell v ∧
        w.steps_taken = v.steps_taken + 1))
    ∧ (in_grid st (next_cell v) = false →
        move_forward st v =
          { st with
              vehicles := st.vehicles.filter (fun w => w.unique_id ≠ v.unique_id),
              current_agents := st.current_agents - 1,
              total_exited := st.total_exited + 1 })
    ∧ (in_grid st (next_cell v) = true →
        st.road_cells.contains (next_cell v) = true →
        vehicle_present st (next_cell v) = false →
        move_forward st v =
          { st with vehicles := (replace_vehicle st.vehicles v.unique_id
              { v with pos := next_cell v,
                       steps_taken := v.steps_taken + 1 }) })
    ∧ (in_grid st (next_cell v) = true →
        (st.road_cells.contains (next_cell v) &&
          !(vehicle_present st (next_cell v))) = false →
        move_forward st v = st) := by
  refine ⟨?_, ?_, ?_, ?_⟩
  · intro w hw
    unfold move_forward at hw
    dsimp only at hw
    split at hw
    · exact Or.inl (List.mem_of_mem_filter hw)
    · split at hw
      · simp only [replace_vehicle, List.mem_map] at hw
        obtain ⟨u, hu, rfl⟩ := hw
        by_cases hid : u.unique_id = v.unique_id
        · right
          simp [hid]
        · left
          simpa [hid] using hu
      · exact Or.inl hw
  · intro hb
    unfold move_forward
    dsimp only
    rw [if_pos (by simp [hb])]
  · intro hb hr hv
    unfold move_forward
    dsimp only
    rw [if_neg (by simp [hb]), if_pos (by rw [hr, hv]; decide)]
  · intro hb hc
    unfold move_forward
    dsimp only
    rw [if_neg (by simp [hb]), if_neg (by rw [hc]; decide)]

/-- Witness for the amended C4 statement: the speed-3 vehicle with a clear
road ahead advances exactly one cell. -/
theorem move_forward_one_cell_witness :
    move_forward speed3_state speed3_vehicle =
      { speed3_state with vehicles := (replace_vehicle speed3_state.vehicles 1
          { speed3_vehicle with pos := (3, 9), steps_taken := 1 }) } :=
  (move_forward_one_cell speed3_state speed3_vehicle).2.2.1
    (by decide) (by decide) (by decide)

/-! ### Controller-field preservation through the agent phase -/

theorem same_ctrl_refl (s : ModelState) : same_ctrl s s := ⟨rfl, rfl, rfl⟩

theorem same_ctrl_trans {s t u : ModelState} (h1 : same_ctrl s t)
    (h2 : same_ctrl t u) : same_ctrl s u :=
  ⟨h1.1.trans h2.1, h1.2.1.trans h2.2.1, h1.2.2.trans h2.2.2⟩

theorem move_forward_ctrl (st : ModelState) (v : Vehicle) :
    same_ctrl (move_forward st v) st := by
  unfold move_forward
  dsimp only
  split
  · exact same_ctrl_refl _
  · split
    · exact same_ctrl_refl _
    · exact same_ctrl_refl _

theorem vehicle_step_on_ctrl (st : ModelState) (v : Vehicle) :
    same_ctrl (vehicle_step_on st v) st := by
  unfold vehicle_step_on
  dsimp only
  split
  · exact move_forward_ctrl _ _
  · exact same_ctrl_refl _

theorem vehicles_phase_ctrl (st : ModelState) :
    same_ctrl (vehicles_phase st) st := by
  unfold vehicles_phase
  refine foldl_preserve _ (fun s => same_ctrl s st) ?_ _ _ (same_ctrl_refl st)
  intro s id hs
  cases hfind : s.vehicles.find? (fun w => w.unique_id = id) with
  | none => simpa [hfind] using hs
  | some v =>
    simp only [hfind]
    exact same_ctrl_trans (vehicle_step_on_ctrl s v) hs

theorem schedule_step_ctrl (st : ModelState) :
    same_ctrl (schedule_step st) st := by
  unfold schedule_step
  exact same_ctrl_trans (vehicles_phase_ctrl _) (same_ctrl_refl _)

theorem conduct_auction_hp (st : ModelState) :
    (conduct_auction st).horizontal_phase = st.horizontal_phase := by
  unfold conduct_auction
  dsimp only
  split <;> rfl

theorem conduct_dutch_hp (st : ModelState) :
    (conduct_dutch_system st).horizontal_phase = st.horizontal_phase := by
  unfold conduct_dutch_system
  split
  · rfl
  · split <;> rfl

theorem strategy_phase_hp (st : ModelState)
    (h : st.light_strategy = .auction ∨ st.light_strategy = .dutch_system) :
    (strategy_phase st).horizontal_phase = st.horizontal_phase := by
  unfold strategy_phase
  rcases h with h | h <;> rw [h] <;> dsimp only
  · split
    · exact conduct_auction_hp st
    · rfl
  · exact conduct_dutch_hp st

/-! ### The spawn loop leaves a surviving tick unchanged -/

theorem spawn_vehicle_ok_eq {st t : ModelState} {sh : List (Int × Int)}
    (h : spawn_vehicle st sh = .ok t) : t = st := by
  unfold spawn_vehicle at h
  split at h
  · cases h
  · cases h
    rfl

theorem spawn_phase_ok_eq :
    ∀ (shuffles : List (List (Int × Int))) {st t : ModelState},
      spawn_phase st shuffles = .ok t → t = st
  | [], _, _, h => by
    cases h
    rfl
  | sh :: rest, st, t, h => by
    unfold spawn_phase at h
    split at h
    · cases h
    case h_2 st1 heq =>
      have h1 := spawn_phase_ok_eq rest h
      rw [h1, spawn_vehicle_ok_eq heq]

theorem model_step_ok {st out : ModelState}
    {shuffles : List (List (Int × Int))}
    (h : model_step st shuffles = .ok out) : out = post_spawn_step st := by
  unfold model_step at h
  split at h
  · cases h
  case h_2 st1 heq =>
    cases h
    rw [spawn_phase_ok_eq shuffles heq]

/-! ### C1: the clearance guard -/

/-- C1: on any tick that completes, whenever the state reached after the
agent steps is in the Clearing transition with a pending phase, the tick
commits the pending phase (and clears the transition) exactly when every
conflict-zone cell holds zero vehicles at the post-move check; otherwise the
Clearing state and the pending phase survive the tick unchanged.  The commit
block sits outside every strategy branch, so this holds for every
strategy. -/
theorem clearance_commit (st out : ModelState)
    (shuffles : List (List (Int × Int))) (b : Bool)
    (hrun : model_step st shuffles = .ok out)
    (hcl : (schedule_step (strategy_phase (tick_timers st))).phase_transition =
      some .clearing)
    (hp : (schedule_step (strategy_phase (tick_timers st))).pending_phase =
      some b) :
    (is_intersection_clear (schedule_step (strategy_phase (tick_timers st))) =
        true →
      out = { schedule_step (strategy_phase (tick_timers st)) with
                horizontal_phase := b,
                phase_transition := none,
                pending_phase := none })
    ∧ (is_intersection_clear (schedule_step (strategy_phase (tick_timers st))) =
        false →
      out = schedule_step (strategy_phase (tick_timers st))) := by
  have hout : out = post_spawn_step st := model_step_ok hrun
  subst hout
  unfold post_spawn_step commit_phase
  constructor
  · intro hclear
    rw [if_pos (by rw [hcl, hclear]; decide)]
    rw [hp]
    rfl
  · intro hclear
    rw [if_neg (by rw [hcl, hclear]; decide)]

/-- Witness for C1 at a concrete clearing state with an empty conflict
zone: the tick commits the pending horizontal phase. -/
theorem clearance_commit_witness :
    post_spawn_step clearing_state =
      { schedule_step (strategy_phase (tick_timers clearing_state)) with
          horizontal_phase := true,
          phase_transition := none,
          pending_phase := none } :=
  (clearance_commit clearing_state (post_spawn_step clearing_state) [] true
    rfl (by decide) (by decide)).1 (by decide)

/-! ### C2: how phase flips are accepted -/

/-- C2 counterexample: under the fixed-cycle strategy the strategy
evaluation itself flips `horizontal_phase` (true to false here) during the
tick, without ever entering the Clearing transition. -/
theorem fixed_cycle_immediate_flip :
    fixed_cycle_state.light_strategy = .fixed_cycle
    ∧ fixed_cycle_state.horizontal_phase = true
    ∧ fixed_cycle_state.phase_transition = none
    ∧ (strategy_phase (tick_timers fixed_cycle_state)).horizontal_phase = false
    ∧ (strategy_phase (tick_timers fixed_cycle_state)).phase_transition = none
    ∧ model_step fixed_cycle_state [] = .ok (post_spawn_step fixed_cycle_state)
    ∧ (post_spawn_step fixed_cycle_state).horizontal_phase = false
    ∧ (post_spawn_step fixed_cycle_state).phase_transition = none :=
  ⟨rfl, rfl, rfl, by decide, by decide, rfl, by decide, by decide⟩

/-- C2 amended: under the Auction and Adaptive strategies a strategy
evaluation never changes `horizontal_phase`; it still equals the pre-tick
value after the agent steps, and if the tick changes it at all then the
change happened at the clearance commit: the post-move state was Clearing
with an empty conflict zone and the new phase is the stored pending phase.
Under FixedCycle (see the counterexample) the evaluation flips the phase
immediately instead. -/
theorem phase_changes_only_at_commit (st : ModelState)
    (h : st.light_strategy = .auction ∨ st.light_strategy = .dutch_system) :
    ((strategy_phase (tick_timers st)).horizontal_phase = st.horizontal_phase)
    ∧ ((schedule_step (strategy_phase (tick_timers st))).horizontal_phase =
        st.horizontal_phase)
    ∧ ((post_spawn_step st).horizontal_phase ≠ st.horizontal_phase →
        (schedule_step (strategy_phase (tick_timers st))).phase_transition =
            some .clearing
        ∧ is_intersection_clear
            (schedule_step (strategy_phase (tick_timers st))) = true
        ∧ (schedule_step (strategy_phase (tick_timers st))).pending_phase =
            some ((post_spawn_step st).horizontal_phase)) := by
  have h1 : (strategy_phase (tick_timers st)).horizontal_phase =
      st.horizontal_phase :=
    strategy_phase_hp (tick_timers st) h
  have h2 : (schedule_step (strategy_phase (tick_timers st))).horizontal_phase =
      st.horizontal_phase :=
    (schedule_step_ctrl _).1.trans h1
  refine ⟨h1, h2, ?_⟩
  intro hne
  have hpost : post_spawn_step st =
      commit_phase (schedule_step (strategy_phase (tick_timers st))) := rfl
  rw [hpost] at hne ⊢
  unfold commit_phase at hne ⊢
  by_cases hcond :
      (decide ((schedule_step (strategy_phase (tick_timers st))).phase_transition
          = some .clearing) &&
        is_intersection_clear (schedule_step (strategy_phase (tick_timers st))))
        = true
  · rw [if_pos hcond] at hne ⊢
    rw [Bool.and_eq_true] at hcond
    have hclr : (schedule_step (strategy_phase (tick_timers st))).phase_transition
        = some .clearing := of_decide_eq_true hcond.1
    cases hpend :
        (schedule_step (strategy_phase (tick_timers st))).pending_phase with
    | none =>
      exfalso
      rw [hpend] at hne
      exact hne h2
    | some b =>
      exact ⟨hclr, hcond.2, rfl⟩
  · rw [if_neg hcond] at hne
    exact absurd h2 hne

/-- Witness for the amended C2 statement at the concrete auction model. -/
theorem phase_changes_only_at_commit_witness :
    (strategy_phase (tick_timers base20)).horizontal_phase =
      base20.horizontal_phase
    ∧ (schedule_step (strategy_phase (tick_timers base20))).horizontal_phase =
      base20.horizontal_phase :=
  ⟨(phase_changes_only_at_commit base20 (Or.inl rfl)).1,
   (phase_changes_only_at_commit base20 (Or.inl rfl)).2.1⟩

/-! ### A fold over lights equals the per-direction filtered sums -/

theorem foldl_split {α β : Type _} [AddCommMonoid β] (p : α → Bool) (f : α → β) :
    ∀ (l : List α) (acc : β × β),
      l.foldl (fun a x => if p x then (a.1 + f x, a.2) else (a.1, a.2 + f x))
          acc =
        (acc.1 + ((l.filter p).map f).sum,
         acc.2 + ((l.filter (fun x => !p x)).map f).sum)
  | [], acc => by simp
  | x :: t, acc => by
    cases hpx : p x
    · simp only [List.foldl_cons, hpx, if_neg Bool.false_ne_true,
        List.filter_cons, Bool.not_false, if_pos, if_neg,
        foldl_split p f t]
      simp [hpx, add_assoc]
    · simp only [List.foldl_cons, hpx, List.filter_cons, Bool.not_true,
        foldl_split p f t]
      simp [hpx, add_assoc]

/-! ### C7: behaviour at the controlling light -/

/-- C7: a vehicle at its controlling light's cell that has not passed the
light.  On Red, its step applies exactly the red-stop update (speed 0,
`stoppedAtLight` set, `stoppedForQueue` cleared, `waitingTime` incremented
by exactly 1) and nothing else: the state change of the whole step is that
single in-place vehicle update, with the position untouched, so each
further Red tick adds 1 to `waitingTime` again.  On Green while previously
stopped, the step applies the green-go update (cruise speed 1 restored,
`stoppedAtLight` cleared, `hasPassedLight` set) and then continues with the
normal queue/movement processing. -/
theorem red_light_stop (st : ModelState) (v : Vehicle)
    (hat : is_at_traffic_light st (vehicle_stage1 st v) = true)
    (hpass : (vehicle_stage1 st v).has_passed_light = false) :
    (check_traffic_light_state st (vehicle_stage1 st v) = some .Red →
      vehicle_step_core st v = (red_stop_update (vehicle_stage1 st v), false)
      ∧ vehicle_step_on st v =
          { st with vehicles := (replace_vehicle st.vehicles v.unique_id
              (red_stop_update (vehicle_stage1 st v))) }
      ∧ (red_stop_update (vehicle_stage1 st v)).pos = v.pos
      ∧ (red_stop_update (vehicle_stage1 st v)).waiting_time =
          (vehicle_stage1 st v).waiting_time + 1)
    ∧ (check_traffic_light_state st (vehicle_stage1 st v) = some .Green →
      (vehicle_stage1 st v).is_stopped_at_light = true →
      vehicle_step_core st v =
        vehicle_continue st (green_go_update (vehicle_stage1 st v))
      ∧ (green_go_update (vehicle_stage1 st v)).speed = 1
      ∧ (green_go_update (vehicle_stage1 st v)).is_stopped_at_light = false
      ∧ (green_go_update (vehicle_stage1 st v)).has_passed_light = true) := by
  constructor
  · intro hred
    have hcore : vehicle_step_core st v =
        (red_stop_update (vehicle_stage1 st v), false) := by
      unfold vehicle_step_core
      rw [if_pos (by rw [hpass, hat]; decide)]
      rw [hred]
    refine ⟨hcore, ?_, ?_, rfl⟩
    · unfold vehicle_step_on
      rw [hcore]
      rfl
    · unfold red_stop_update vehicle_stage1
      split <;> rfl
  · intro hgreen hstop
    refine ⟨?_, rfl, rfl, rfl⟩
    unfold vehicle_step_core
    rw [if_pos (by rw [hpass, hat]; decide)]
    rw [hgreen, if_pos hstop]

/-! ### C5: the auction strategy -/

theorem auction_totals_eq (st : ModelState) :
    auction_totals st = (claimed_horizontal_total st, claimed_vertical_total st) := by
  unfold auction_totals claimed_horizontal_total claimed_vertical_total
  rw [foldl_split (fun l => l.is_horizontal) (light_bid st) st.traffic_lights
    (0, 0)]
  simp

/-- C5: under the Auction strategy, once `current_cycle_time` has reached
`decision_interval` the evaluation sums the bids
`queue_length * (total_wait / queue_length)` (0 for an empty lane) per
direction group, picks the horizontal phase exactly when the horizontal
total is greater-or-equal (ties to horizontal), and enters Clearing with
that phase pending exactly when it differs from the current phase; before
the interval elapses the evaluation does nothing. -/
theorem auction_claim (st : ModelState)
    (hstrat : st.light_strategy = .auction) :
    auction_totals st = (claimed_horizontal_total st, claimed_vertical_total st)
    ∧ (st.current_cycle_time ≥ st.decision_interval →
        strategy_phase st =
          (if (decide (claimed_horizontal_total st ≥ claimed_vertical_total st))
              ≠ st.horizontal_phase
           then { st with
                    phase_transition := some .clearing,
                    pending_phase := some (decide (claimed_horizontal_total st ≥
                      claimed_vertical_total st)),
                    current_cycle_time := 0 }
           else { st with current_cycle_time := 0 }))
    ∧ (st.current_cycle_time < st.decision_interval → strategy_phase st = st) := by
  have ht := auction_totals_eq st
  refine ⟨ht, ?_, ?_⟩
  · intro htr
    have hsp : strategy_phase st =
        { conduct_auction st with current_cycle_time := 0 } := by
      unfold strategy_phase
      rw [hstrat]
      dsimp only
      rw [if_pos htr]
    rw [hsp]
    unfold conduct_auction
    dsimp only
    rw [ht]
    dsimp only
    split
    case isTrue hne => rfl
    case isFalse hne => rfl
  · intro hlt
    unfold strategy_phase
    rw [hstrat]
    dsimp only
    rw [if_neg (by omega)]

/-- Witness for C5, scenario 3: one horizontal vehicle with waiting time 10
against empty vertical lanes yields bids 10 vs 0 and a pending horizontal
phase with the Clearing transition entered. -/
theorem auction_claim_witness :
    claimed_horizontal_total auction_scenario = 10
    ∧ claimed_vertical_total auction_scenario = 0
    ∧ (strategy_phase auction_scenario).phase_transition = some .clearing
    ∧ (strategy_phase auction_scenario).pending_phase = some true
    ∧ (strategy_phase auction_scenario).current_cycle_time = 0 := by
  have hw : light_queue_stats auction_scenario ⟨(8, 9), .Red, true⟩ = (1, 10) := by
    decide
  have he : light_queue_stats auction_scenario ⟨(11, 10), .Red, true⟩ = (0, 0) := by
    decide
  have hn : light_queue_stats auction_scenario ⟨(10, 8), .Red, false⟩ = (0, 0) := by
    decide
  have hs : light_queue_stats auction_scenario ⟨(9, 11), .Red, false⟩ = (0, 0) := by
    decide
  have hbw : light_bid auction_scenario ⟨(8, 9), .Red, true⟩ = 10 := by
    unfold light_bid
    rw [hw]
    norm_num
  have hbe : light_bid auction_scenario ⟨(11, 10), .Red, true⟩ = 0 := by
    unfold light_bid
    rw [he]
    norm_num
  have hbn : light_bid auction_scenario ⟨(10, 8), .Red, false⟩ = 0 := by
    unfold light_bid
    rw [hn]
    norm_num
  have hbs : light_bid auction_scenario ⟨(9, 11), .Red, false⟩ = 0 := by
    unfold light_bid
    rw [hs]
    norm_num
  have hlights : auction_scenario.traffic_lights =
      [⟨(10, 8), .Red, false⟩, ⟨(9, 11), .Red, false⟩,
       ⟨(8, 9), .Red, true⟩, ⟨(11, 10), .Red, true⟩] := by decide
  have hH : claimed_horizontal_total auction_scenario = 10 := by
    unfold claimed_horizontal_total
    rw [hlights]
    simp [List.filter, hbw, hbe]
  have hV : claimed_vertical_total auction_scenario = 0 := by
    unfold claimed_vertical_total
    rw [hlights]
    simp [List.filter, hbn, hbs]
  have happ := (auction_claim auction_scenario rfl).2.1 (by decide)
  rw [hH, hV] at happ
  rw [if_pos (by decide)] at happ
  rw [happ]
  exact ⟨hH, hV, rfl, rfl, rfl⟩

/-! ### C6: the adaptive (Dutch) strategy -/

theorem dutch_queues_eq (st : ModelState) :
    dutch_queues st = (claimed_horizontal_queue st, claimed_vertical_queue st) := by
  unfold dutch_queues claimed_horizontal_queue claimed_vertical_queue
  dsimp only
  rw [foldl_split (fun l => l.is_horizontal) (light_queue_in_range st)
    st.traffic_lights (0, 0)]
  simp

theorem dutch_green_eq (st : ModelState) :
    dutch_green_time_src st = dutch_green_time st := by
  unfold dutch_green_time_src dutch_green_time
  rw [dutch_queues_eq st]

/-- The concrete green time of `dutch_state`: one horizontal and one
vertical queued vehicle give ratio 1/2, so the source computes
`int(7 + 53 * (1/2)) = int(33.5) = 33` and the clamp leaves it at 33. -/
theorem dutch_state_green_src : dutch_green_time_src dutch_state = 33 := by
  unfold dutch_green_time_src
  rw [show dutch_queues dutch_state = (1, 1) from by decide]
  dsimp only
  rw [if_pos (by decide)]
  rw [show dutch_state.min_green_time = 7 from by decide,
      show dutch_state.max_green_time = 60 from by decide]
  have harith : ((7 : Int) : ℚ) + (((60 : Int) : ℚ) - ((7 : Int) : ℚ)) *
      (((1 : Int) : ℚ) / (((1 : Int) + (1 : Int) : Int) : ℚ)) = 67 / 2 := by
    push_cast
    norm_num
  rw [harith]
  have hfloor : py_int ((67 : ℚ) / 2) = 33 := by
    unfold py_int
    rw [if_pos (by norm_num)]
    rw [Int.floor_eq_iff]
    constructor <;> norm_num
  rw [hfloor]
  decide

/-- C6 counterexample: with queues 1 and 1, min green 7, max green 60 and
clearance 3, the spec formula gives target green 33.5, so per the claim the
flip should not be requested before the timer reaches 36.5; the code
truncates to 33 and requests the flip at timer 36. -/
theorem adaptive_truncation_counterexample :
    dutch_queues dutch_state = (1, 1)
    ∧ dutch_state.min_green_time = 7
    ∧ dutch_state.max_green_time = 60
    ∧ dutch_state.clearance_time = 3
    ∧ dutch_state.dutch_cycle_time = 36
    ∧ dutch_state.phase_transition = none
    ∧ conduct_dutch_system dutch_state =
        { dutch_state with phase_transition := some .clearing,
                           pending_phase := some false,
                           dutch_cycle_time := 0 }
    ∧ ((dutch_state.dutch_cycle_time : ℚ) <
        (dutch_state.min_green_time : ℚ) +
          ((dutch_state.max_green_time : ℚ) - (dutch_state.min_green_time : ℚ)) *
            ((1 : ℚ) / (1 + 1)) +
          (dutch_state.clearance_time : ℚ)) := by
  refine ⟨by decide, by decide, by decide, by decide, by decide, by decide,
    ?_, ?_⟩
  · unfold conduct_dutch_system
    rw [if_neg (by decide), if_pos (by rw [dutch_state_green_src]; decide)]
    rfl
  · rw [show dutch_state.dutch_cycle_time = 36 from by decide,
        show dutch_state.min_green_time = 7 from by decide,
        show dutch_state.max_green_time = 60 from by decide,
        show dutch_state.clearance_time = 3 from by decide]
    push_cast
    norm_num

/-- C6 amended: under the Adaptive strategy, on every tick on which the
controller is not already Clearing, the controller counts the queued
vehicles within sensor range of each light along its lane, sums them per
direction group, sets the target green to the integer truncation of
`minGreen + (maxGreen - minGreen) * horizontalQueue/totalQueue` clamped to
`[minGreen, maxGreen]` (or `minGreen` when the total queue is 0), and
requests the opposite phase via Clearing, resetting the adaptive cycle
timer to 0, exactly when the timer has reached that target green plus the
clearance time; while Clearing it does nothing. -/
theorem dutch_claim (st : ModelState)
    (hstrat : st.light_strategy = .dutch_system) :
    strategy_phase st = conduct_dutch_system st
    ∧ dutch_queues st = (claimed_horizontal_queue st, claimed_vertical_queue st)
    ∧ dutch_green_time_src st = dutch_green_time st
    ∧ (st.phase_transition = some .clearing → conduct_dutch_system st = st)
    ∧ (st.phase_transition = none →
        (st.dutch_cycle_time ≥ dutch_green_time st + st.clearance_time →
          conduct_dutch_system st =
            { st with phase_transition := some .clearing,
                      pending_phase := some (!st.horizontal_phase),
                      dutch_cycle_time := 0 })
        ∧ (st.dutch_cycle_time < dutch_green_time st + st.clearance_time →
          conduct_dutch_system st = st)) := by
  have hg := dutch_green_eq st
  refine ⟨?_, dutch_queues_eq st, hg, ?_, ?_⟩
  · unfold strategy_phase
    rw [hstrat]
  · intro hcl
    unfold conduct_dutch_system
    rw [if_pos hcl]
  · intro hnone
    constructor
    · intro hge
      unfold conduct_dutch_system
      rw [if_neg (by simp [hnone]), if_pos (by rw [hg]; exact hge)]
    · intro hlt
      unfold conduct_dutch_system
      rw [if_neg (by simp [hnone]), if_neg (by rw [hg]; omega)]

/-- Witness for the amended C6 statement: at `dutch_state` (timer 36, target
green 33, clearance 3) the controller requests the opposite phase via
Clearing and resets the adaptive cycle timer. -/
theorem dutch_claim_witness :
    conduct_dutch_system dutch_state =
      { dutch_state with phase_transition := some .clearing,
                         pending_phase := some (!dutch_state.horizontal_phase),
                         dutch_cycle_time := 0 } := by
  have hgc : dutch_green_time dutch_state = 33 := by
    rw [← (dutch_claim dutch_state rfl).2.2.1]
    exact dutch_state_green_src
  exact ((dutch_claim dutch_state rfl).2.2.2.2 (by decide)).1
    (by rw [hgc]; decide)

/-- Witness for C7: the single vehicle standing at the west light cell of
the fresh model (all lights still Red) stops: speed 0, stopped-at-light
set, waiting time 1, position unchanged. -/
theorem red_light_stop_witness :
    check_traffic_light_state at_light_state
        (vehicle_stage1 at_light_state at_light_vehicle) = some .Red
    ∧ vehicle_step_on at_light_state at_light_vehicle =
      { at_light_state with vehicles := (replace_vehicle at_light_state.vehicles 1
          (red_stop_update (vehicle_stage1 at_light_state at_light_vehicle))) } :=
  ⟨by decide,
   ((red_light_stop at_light_state at_light_vehicle (by decide) (by decide)).1
      (by decide)).2.1⟩

/-! ### C3: the no-overlap invariant -/

theorem eq_of_mem_same_id {l : List Vehicle} (h : vehicles_ok l) {a b : Vehicle}
    (ha : a ∈ l) (hb : b ∈ l) (hid : a.unique_id = b.unique_id) : a = b := by
  induction l with
  | nil => cases ha
  | cons x t ih =>
    rcases List.mem_cons.mp ha with rfl | ha2
    · rcases List.mem_cons.mp hb with rfl | hb2
      · rfl
      · exact absurd hid ((List.pairwise_cons.mp h).1 b hb2).1
    · rcases List.mem_cons.mp hb with rfl | hb2
      · exact absurd hid.symm ((List.pairwise_cons.mp h).1 a ha2).1
      · exact ih (List.pairwise_cons.mp h).2 ha2 hb2

theorem vehicle_stage1_pos (st : ModelState) (v : Vehicle) :
    (vehicle_stage1 st v).pos = v.pos := by
  unfold vehicle_stage1
  split <;> rfl

theorem vehicle_stage1_id (st : ModelState) (v : Vehicle) :
    (vehicle_stage1 st v).unique_id = v.unique_id := by
  unfold vehicle_stage1
  split <;> rfl

theorem handle_approach_pos (st : ModelState) (v : Vehicle) :
    (handle_intersection_approach st v).pos = v.pos := by
  unfold handle_intersection_approach
  split
  · rfl
  · split <;> rfl

theorem handle_approach_id (st : ModelState) (v : Vehicle) :
    (handle_intersection_approach st v).unique_id = v.unique_id := by
  unfold handle_intersection_approach
  split
  · rfl
  · split <;> rfl

theorem waiting_update_pos (v : Vehicle) : (waiting_update v).pos = v.pos := by
  unfold waiting_update
  split <;> rfl

theorem waiting_update_id (v : Vehicle) :
    (waiting_update v).unique_id = v.unique_id := by
  unfold waiting_update
  split <;> rfl

theorem approach_update_pos (st : ModelState) (v : Vehicle) :
    (approach_update st v).pos = v.pos := by
  unfold approach_update
  split
  · exact handle_approach_pos st v
  · rfl

theorem approach_update_id (st : ModelState) (v : Vehicle) :
    (approach_update st v).unique_id = v.unique_id := by
  unfold approach_update
  split
  · exact handle_approach_id st v
  · rfl

theorem queue_update_pos (st : ModelState) (v : Vehicle) :
    (queue_update st v).pos = v.pos := by
  unfold queue_update
  repeat' split
  all_goals rfl

theorem queue_update_id (st : ModelState) (v : Vehicle) :
    (queue_update st v).unique_id = v.unique_id := by
  unfold queue_update
  repeat' split
  all_goals rfl

theorem vehicle_continue_pos (st : ModelState) (v : Vehicle) :
    (vehicle_continue st v).1.pos = v.pos := by
  unfold vehicle_continue
  dsimp only
  exact (queue_update_pos st _).trans
    ((approach_update_pos st _).trans (waiting_update_pos v))

theorem vehicle_continue_id (st : ModelState) (v : Vehicle) :
    (vehicle_continue st v).1.unique_id = v.unique_id := by
  unfold vehicle_continue
  dsimp only
  exact (queue_update_id st _).trans
    ((approach_update_id st _).trans (waiting_update_id v))

theorem vehicle_step_core_pos (st : ModelState) (v : Vehicle) :
    (vehicle_step_core st v).1.pos = v.pos := by
  unfold vehicle_step_core
  dsimp only
  have h1 := vehicle_stage1_pos st v
  split
  · split
    · exact h1
    · split
      · exact (vehicle_continue_pos st _).trans h1
      · exact (vehicle_continue_pos st _).trans h1
    · exact (vehicle_continue_pos st _).trans h1
  · exact (vehicle_continue_pos st _).trans h1

theorem vehicle_step_core_id (st : ModelState) (v : Vehicle) :
    (vehicle_step_core st v).1.unique_id = v.unique_id := by
  unfold vehicle_step_core
  dsimp only
  have h1 := vehicle_stage1_id st v
  split
  · split
    · exact h1
    · split
      · exact (vehicle_continue_id st _).trans h1
      · exact (vehicle_continue_id st _).trans h1
    · exact (vehicle_continue_id st _).trans h1
  · exact (vehicle_continue_id st _).trans h1

theorem replace_vehicle_ok {l : List Vehicle} (h : vehicles_ok l)
    {v v' : Vehicle} (hv : v ∈ l) (hid : v'.unique_id = v.unique_id)
    (hpos : v'.pos = v.pos) :
    vehicles_ok (replace_vehicle l v.unique_id v') := by
  unfold replace_vehicle vehicles_ok
  rw [List.pairwise_map]
  refine List.Pairwise.imp_of_mem ?_ h
  intro a b ha hb hab
  by_cases h1 : a.unique_id = v.unique_id <;>
    by_cases h2 : b.unique_id = v.unique_id
  · exact absurd (h1.trans h2.symm) hab.1
  · have ha_eq : a = v := eq_of_mem_same_id h ha hv h1
    simp only [if_pos h1, if_neg h2]
    constructor
    · rw [hid, ← ha_eq]
      exact hab.1
    · rw [hpos, ← ha_eq]
      exact hab.2
  · have hb_eq : b = v := eq_of_mem_same_id h hb hv h2
    simp only [if_neg h1, if_pos h2]
    constructor
    · rw [hid, ← hb_eq]
      exact hab.1
    · rw [hpos, ← hb_eq]
      exact hab.2
  · simp only [if_neg h1, if_neg h2]
    exact hab

theorem move_forward_ok {st : ModelState} {v : Vehicle}
    (h : vehicles_ok st.vehicles) (hv : v ∈ st.vehicles) :
    vehicles_ok (move_forward st v).vehicles := by
  unfold move_forward
  dsimp only
  split
  · exact List.Pairwise.sublist (List.filter_sublist _) h
  · split
    case isTrue hcond =>
      have hfree : ∀ w ∈ st.vehicles, w.pos ≠ next_cell v := by
        have hveh : vehicle_present st (next_cell v) = false := by
          simp only [Bool.and_eq_true, Bool.not_eq_true'] at hcond
          exact hcond.2
        unfold vehicle_present at hveh
        rw [List.any_eq_false] at hveh
        intro w hw hcontra
        exact hveh w hw (by simp [hcontra])
      unfold vehicles_ok replace_vehicle
      rw [List.pairwise_map]
      refine List.Pairwise.imp_of_mem ?_ h
      intro a b ha hb hab
      by_cases h1 : a.unique_id = v.unique_id <;>
        by_cases h2 : b.unique_id = v.unique_id
      · exact absurd (h1.trans h2.symm) hab.1
      · have ha_eq : a = v := eq_of_mem_same_id h ha hv h1
        simp only [if_pos h1, if_neg h2]
        constructor
        · show v.unique_id ≠ b.unique_id
          rw [← ha_eq]
          exact hab.1
        · show next_cell v ≠ b.pos
          exact fun hc => hfree b hb hc.symm
      · have hb_eq : b = v := eq_of_mem_same_id h hb hv h2
        simp only [if_neg h1, if_pos h2]
        constructor
        · show a.unique_id ≠ v.unique_id
          exact h1
        · show a.pos ≠ next_cell v
          exact hfree a ha
      · simp only [if_neg h1, if_neg h2]
        exact hab
    case isFalse => exact h

theorem vehicle_step_on_ok {st : ModelState} {v : Vehicle}
    (h : vehicles_ok st.vehicles) (hv : v ∈ st.vehicles) :
    vehicles_ok (vehicle_step_on st v).vehicles := by
  unfold vehicle_step_on
  dsimp only
  have h1 : vehicles_ok
      (replace_vehicle st.vehicles v.unique_id (vehicle_step_core st v).1) :=
    replace_vehicle_ok h hv (vehicle_step_core_id st v)
      (vehicle_step_core_pos st v)
  have hmem : (vehicle_step_core st v).1 ∈
      replace_vehicle st.vehicles v.unique_id (vehicle_step_core st v).1 := by
    unfold replace_vehicle
    have := List.mem_map_of_mem
      (fun w => if w.unique_id = v.unique_id then (vehicle_step_core st v).1
        else w) hv
    simpa using this
  split
  · exact move_forward_ok h1 hmem
  · exact h1

theorem vehicles_phase_ok (st : ModelState) (h : vehicles_ok st.vehicles) :
    vehicles_ok (vehicles_phase st).vehicles := by
  unfold vehicles_phase
  refine foldl_preserve _ (fun s : ModelState => vehicles_ok s.vehicles) ?_ _ _ h
  intro s id hs
  cases hfind : s.vehicles.find? (fun w => w.unique_id = id) with
  | none => simpa [hfind] using hs
  | some v =>
    simp only [hfind]
    exact vehicle_step_on_ok hs (List.mem_of_find?_eq_some hfind)

theorem conduct_auction_vehicles (st : ModelState) :
    (conduct_auction st).vehicles = st.vehicles := by
  unfold conduct_auction
  dsimp only
  split <;> rfl

theorem conduct_dutch_vehicles (st : ModelState) :
    (conduct_dutch_system st).vehicles = st.vehicles := by
  unfold conduct_dutch_system
  split
  · rfl
  · split <;> rfl

theorem strategy_phase_vehicles (st : ModelState) :
    (strategy_phase st).vehicles = st.vehicles := by
  unfold strategy_phase
  cases st.light_strategy
  · dsimp only
    split
    · exact conduct_auction_vehicles st
    · rfl
  · dsimp only
    split <;> rfl
  · exact conduct_dutch_vehicles st

theorem commit_phase_vehicles (st : ModelState) :
    (commit_phase st).vehicles = st.vehicles := by
  unfold commit_phase
  split <;> rfl

/-- C3: on any tick that completes, starting from a committed state whose
vehicles occupy pairwise distinct cells (and carry the pairwise distinct
ids mesa's `next_id` creates), the committed state after the tick again has
no two vehicles on the same cell: each `_move_forward` commits only into a
cell holding no vehicle, so the at-most-one-vehicle-per-cell property is
preserved tick to tick. -/
theorem no_overlap_preserved (st out : ModelState)
    (shuffles : List (List (Int × Int)))
    (h : vehicles_ok st.vehicles)
    (hrun : model_step st shuffles = .ok out) :
    no_overlap out.vehicles ∧ vehicles_ok out.vehicles := by
  have hout : out = post_spawn_step st := model_step_ok hrun
  subst hout
  have h1 : vehicles_ok
      (schedule_step (strategy_phase (tick_timers st))).vehicles := by
    unfold schedule_step
    apply vehicles_phase_ok
    rw [show (lights_phase (strategy_phase (tick_timers st))).vehicles =
        (strategy_phase (tick_timers st)).vehicles from rfl]
    rw [strategy_phase_vehicles]
    exact h
  have h2 : vehicles_ok (post_spawn_step st).vehicles := by
    unfold post_spawn_step
    rw [commit_phase_vehicles]
    exact h1
  exact ⟨h2.imp (fun hab => hab.2), h2⟩

/-- Witness for C3: a tick of the two-vehicle state commits with the two
vehicles still on distinct cells. -/
theorem no_overlap_preserved_witness :
    no_overlap (post_spawn_step two_vehicle_state).vehicles :=
  (no_overlap_preserved two_vehicle_state (post_spawn_step two_vehicle_state)
    [] (by unfold vehicles_ok; decide) rfl).1

end IntersectionSim
